import Mathlib

/-!
Shallow embedding of src/main.rs of the subtle-btc-alert repository.

Modelling conventions:
* Rust f64 prices are modelled as rationals; the decimal strings the
  program actually parses denote exact rationals in all the cases the
  claims are about.
* The reqwest HTTP layer is an external input: one loop cycle receives
  either a network-level failure or a JSON body.  The combinator
  `.json().await?` in the source both reads the body and runs serde
  deserialization, and a deserialization failure propagates through `?`
  exactly like a network failure; the model keeps them as distinct
  error constructors so statements can tell them apart.
* Instant is modelled as an abstract `Nat` timestamp supplied to the
  cycle (the value Instant::now() would return at that point).
* The `client : Client` field of PriceMonitor carries no state observable
  by any claim and is omitted.
* Indexing an empty Vec with `c[0]` in Rust panics; the model makes that
  outcome explicit with a dedicated `panicked` result constructor.
-/

/-- Minimal JSON value model, used to state what serde deserialization of
the Kraken response accepts and rejects. -/
inductive Json where
  | null : Json
  | bool (b : Bool) : Json
  | num (q : ℚ) : Json
  | str (s : String) : Json
  | arr (elems : List Json) : Json
  | obj (fields : List (String × Json)) : Json

/-- Field lookup in a JSON object; any non-object has no fields. -/
def Json.getField : Json → String → Option Json
  | Json.obj fields, key => (fields.find? (fun f => f.1 == key)).map (fun f => f.2)
  | _, _ => none

/-- Deserialize a JSON value as a string, as serde does for a String field. -/
def Json.asString : Json → Option String
  | Json.str s => some s
  | _ => none

/-- Deserialize a JSON value as a Vec of String, as serde does: the value
must be an array and every element must be a string. -/
def Json.asStringList : Json → Option (List String)
  | Json.arr elems => elems.mapM Json.asString
  | _ => none

/-- Struct BtcUsdPair from the source: the list `c` of price strings
(c[0] is the last trade closed price). -/
structure BtcUsdPair where
  c : List String

/-- Struct KrakenResult from the source: field btc_usd, renamed to the
JSON key XXBTZUSD by the serde attribute. -/
structure KrakenResult where
  btc_usd : BtcUsdPair

/-- Struct KrakenResponse from the source: the envelope with the
API-level error strings and the result object. -/
structure KrakenResponse where
  error : List String
  result : KrakenResult

/-- Serde-derived deserializer for BtcUsdPair: requires a field "c"
holding an array of strings. -/
def deserializeBtcUsdPair (j : Json) : Option BtcUsdPair :=
  match j.getField "c" with
  | some cj => (Json.asStringList cj).map (fun cs => { c := cs })
  | none => none

/-- Serde-derived deserializer for KrakenResult: requires the field
"XXBTZUSD" (the serde rename of btc_usd); a result object lacking the
pair entry fails to deserialize. -/
def deserializeKrakenResult (j : Json) : Option KrakenResult :=
  match j.getField "XXBTZUSD" with
  | some pj => (deserializeBtcUsdPair pj).map (fun p => { btc_usd := p })
  | none => none

/-- Serde-derived deserializer for KrakenResponse: requires the fields
"error" (array of strings) and "result" (a KrakenResult). -/
def deserializeKrakenResponse (j : Json) : Option KrakenResponse :=
  match j.getField "error", j.getField "result" with
  | some ej, some rj =>
    (match Json.asStringList ej, deserializeKrakenResult rj with
     | some errs, some r => some { error := errs, result := r }
     | _, _ => none)
  | _, _ => none

/-- Numeric value of a list of decimal digit characters. -/
def digitsToNat (ds : List Char) : Nat :=
  ds.foldl (fun n d => 10 * n + (d.toNat - 48)) 0

/-- Optional leading sign of a numeric literal. -/
def parseSign : List Char → Int × List Char
  | '+' :: rest => (1, rest)
  | '-' :: rest => (-1, rest)
  | cs => (1, cs)

/-- Mantissa of a decimal literal: digits, optionally with a decimal
point, at least one digit overall. -/
def parseMantissa (cs : List Char) : Option (ℚ × List Char) :=
  let p := cs.span Char.isDigit
  match p.2 with
  | '.' :: afterPoint =>
    let q := afterPoint.span Char.isDigit
    if p.1.isEmpty && q.1.isEmpty then none
    else some ((digitsToNat p.1 : ℚ) + (digitsToNat q.1 : ℚ) / (10 ^ q.1.length : ℚ), q.2)
  | _ =>
    if p.1.isEmpty then none
    else some ((digitsToNat p.1 : ℚ), p.2)

/-- Exponent part of a decimal literal, after the e or E marker. -/
def parseExponent (cs : List Char) : Option (Int × List Char) :=
  let sp := parseSign cs
  let dp := sp.2.span Char.isDigit
  if dp.1.isEmpty then none
  else some (sp.1 * (digitsToNat dp.1 : Int), dp.2)

/-- Model of Rust str::parse for f64 restricted to its finite decimal
forms: an optional sign, a mantissa of digits with an optional decimal
point, and an optional exponent.  The special forms inf and NaN that the
Rust parser also accepts denote non-finite floats and lie outside the
rational price model; no price-related claim involves them. -/
def parseF64 (s : String) : Option ℚ :=
  let sp := parseSign s.toList
  match parseMantissa sp.2 with
  | none => none
  | some m =>
    match m.2 with
    | [] => some ((sp.1 : ℚ) * m.1)
    | 'e' :: rest =>
      (match parseExponent rest with
       | some ep => if ep.2.isEmpty then some ((sp.1 : ℚ) * m.1 * (10 : ℚ) ^ ep.1) else none
       | none => none)
    | 'E' :: rest =>
      (match parseExponent rest with
       | some ep => if ep.2.isEmpty then some ((sp.1 : ℚ) * m.1 * (10 : ℚ) ^ ep.1) else none
       | none => none)
    | _ => none

/-- Monitor State from struct PriceMonitor in the source.  The reqwest
client field is omitted (no observable state); last_alert is the abstract
timestamp of the Instant stored there. -/
structure PriceMonitor where
  last_price : Option ℚ
  last_alert : Nat
  alert_threshold : ℚ

/-- PriceMonitor::new from the source: no last price yet, last_alert set
to the current instant, the threshold as configured. -/
def PriceMonitor.new (threshold : ℚ) (now : Nat) : PriceMonitor :=
  { last_price := none, last_alert := now, alert_threshold := threshold }

/-- Environment input to one fetch: either the HTTP request or the body
read fails at the network level, or a JSON body is obtained. -/
inductive HttpOutcome where
  | fail : HttpOutcome
  | success (body : Json) : HttpOutcome

/-- Error taxonomy of one fetch_price call, following the source paths:
transport for a send failure propagated by the first question mark,
decode for a serde deserialization failure propagated by the second,
api for the bail on a non-empty error list, parse for the context-wrapped
parse failure of the price string. -/
inductive FetchError where
  | transport : FetchError
  | decode : FetchError
  | api (errs : List String) : FetchError
  | parse : FetchError

/-- Outcome of one fetch_price call; panicked records the index-out-of-
bounds panic of c[0] on an empty price list, which is not a Result value
in the source but an unwind that escapes the function. -/
inductive FetchResult where
  | ok (price : ℚ) : FetchResult
  | err (e : FetchError) : FetchResult
  | panicked : FetchResult

/-- PriceMonitor::fetch_price from the source, as a function of the HTTP
outcome: propagate network and deserialization failures, bail with the
API error list when it is non-empty, then index c[0] (panicking when c is
empty) and parse it as f64. -/
def fetch_price (outcome : HttpOutcome) : FetchResult :=
  match outcome with
  | HttpOutcome.fail => FetchResult.err FetchError.transport
  | HttpOutcome.success body =>
    match deserializeKrakenResponse body with
    | none => FetchResult.err FetchError.decode
    | some response =>
      if response.error.isEmpty then
        match response.result.btc_usd.c with
        | [] => FetchResult.panicked
        | s :: _ =>
          (match parseF64 s with
           | some price => FetchResult.ok price
           | none => FetchResult.err FetchError.parse)
      else FetchResult.err (FetchError.api response.error)

/-- PriceMonitor::should_alert from the source: relative change of the
current price against the stored last price, compared inclusively against
the threshold; false when no last price is stored. -/
def should_alert (m : PriceMonitor) (current_price : ℚ) : Bool :=
  match m.last_price with
  | some last_price =>
    let price_change := |current_price - last_price| / last_price
    decide (price_change ≥ m.alert_threshold)
  | none => false

/-- Observable result of one loop cycle: the monitor state afterwards,
whether play_alert was invoked, and whether the cycle panicked (ending
the process) instead of reaching the next tick. -/
structure CycleResult where
  monitor : PriceMonitor
  alerted : Bool
  panicked : Bool

/-- One iteration of the loop body in main, given the monitor state, the
HTTP outcome of this cycle, the success of play_alert (alertOk, which the
source only logs and never branches on for state), and the current
instant taken when Instant::now() runs.  On a fetch success the rule is
evaluated, play_alert runs and last_alert is overwritten when it fires,
and last_price is committed unconditionally; on a fetch error the state
is untouched; on the c[0] panic the process dies. -/
def loop_body (monitor : PriceMonitor) (http : HttpOutcome) (alertOk : Bool) (now : Nat) :
    CycleResult :=
  match fetch_price http with
  | FetchResult.ok current_price =>
    if should_alert monitor current_price then
      { monitor := { monitor with last_alert := now, last_price := some current_price },
        alerted := true, panicked := false }
    else
      { monitor := { monitor with last_price := some current_price },
        alerted := false, panicked := false }
  | FetchResult.err _ => { monitor := monitor, alerted := false, panicked := false }
  | FetchResult.panicked => { monitor := monitor, alerted := false, panicked := true }

/-- True when fetch_price ends in the c[0] panic rather than a Result. -/
def fetchPanics (http : HttpOutcome) : Bool :=
  match fetch_price http with
  | FetchResult.panicked => true
  | _ => false

/-- Well-formed Kraken body whose price string is "2". -/
def good_body : Json :=
  Json.obj [("error", Json.arr []),
            ("result", Json.obj [("XXBTZUSD", Json.obj [("c", Json.arr [Json.str "2"])])])]

/-- Well-formed Kraken body whose price string is "50050". -/
def body_50050 : Json :=
  Json.obj [("error", Json.arr []),
            ("result", Json.obj [("XXBTZUSD", Json.obj [("c", Json.arr [Json.str "50050"])])])]

/-- The exact scenario body of the spec: a non-empty error list together
with an empty result object. -/
def c4_body : Json :=
  Json.obj [("error", Json.arr [Json.str "EQuery:Unknown asset pair"]),
            ("result", Json.obj [])]

/-- Body with a non-empty error list and a result that still carries the
pair entry, so the envelope deserializes. -/
def c4_witness_body : Json :=
  Json.obj [("error", Json.arr [Json.str "EService:Unavailable"]),
            ("result", Json.obj [("XXBTZUSD", Json.obj [("c", Json.arr [Json.str "1"])])])]

/-- Body that deserializes with an empty error list but an empty c list. -/
def c5_body : Json :=
  Json.obj [("error", Json.arr []),
            ("result", Json.obj [("XXBTZUSD", Json.obj [("c", Json.arr [])])])]

/-- Body that deserializes with an empty error list and a price string
that is not a valid decimal number. -/
def c5_badnum_body : Json :=
  Json.obj [("error", Json.arr []),
            ("result", Json.obj [("XXBTZUSD", Json.obj [("c", Json.arr [Json.str "not a number"])])])]

/-- Body whose price string is the degenerate zero price "0". -/
def c6_body : Json :=
  Json.obj [("error", Json.arr []),
            ("result", Json.obj [("XXBTZUSD", Json.obj [("c", Json.arr [Json.str "0"])])])]

/-- Another empty-c body, with an extra field serde would ignore. -/
def c9_body : Json :=
  Json.obj [("error", Json.arr []),
            ("result", Json.obj [("XXBTZUSD",
              Json.obj [("c", Json.arr []), ("v", Json.arr [Json.str "1"])])])]


/-- C1: with a stored last price p > 0 the rule fires exactly when the
relative change of the current price c against p reaches the threshold,
inclusively at the boundary; with no stored price it never fires. -/
theorem should_alert_iff_threshold :
    (∀ (m : PriceMonitor) (p c : ℚ), m.last_price = some p → 0 < p →
      (should_alert m c = true ↔ |c - p| / p ≥ m.alert_threshold)) ∧
    (∀ (m : PriceMonitor) (c : ℚ), m.last_price = none → should_alert m c = false) := by
  constructor
  · intro m p c hm _
    simp [should_alert, hm]
  · intro m c hm
    simp [should_alert, hm]

/-- Witness for C1 at last price 2, current price 3, threshold 1/2. -/
theorem should_alert_iff_threshold_witness :
    (should_alert { last_price := some 2, last_alert := 0, alert_threshold := 1/2 } 3 = true ↔
      |(3 : ℚ) - 2| / 2 ≥ (1 : ℚ)/2) ∧
    should_alert { last_price := none, last_alert := 0, alert_threshold := 1/2 } 3 = false := by
  constructor
  · exact should_alert_iff_threshold.1
      { last_price := some 2, last_alert := 0, alert_threshold := 1/2 } 2 3 rfl (by norm_num)
  · exact should_alert_iff_threshold.2
      { last_price := none, last_alert := 0, alert_threshold := 1/2 } 3 rfl

/-- C2: any cycle whose fetch succeeds with price c ends with last_price
committed to some c, whatever the rule decided and whatever play_alert
returned. -/
theorem loop_commits_price (m : PriceMonitor) (http : HttpOutcome) (c : ℚ)
    (alertOk : Bool) (now : Nat) (h : fetch_price http = FetchResult.ok c) :
    (loop_body m http alertOk now).monitor.last_price = some c := by
  unfold loop_body
  rw [h]
  by_cases ha : should_alert m c = true
  · simp [ha]
  · simp [ha]

/-- Witness for C2 on a well-formed body carrying the price string 2. -/
theorem loop_commits_price_witness :
    (loop_body (PriceMonitor.new (1/100) 0) (HttpOutcome.success good_body) true 5).monitor.last_price
      = some 2 :=
  loop_commits_price (PriceMonitor.new (1/100) 0) (HttpOutcome.success good_body) 2 true 5
    (by show FetchResult.ok (((1 : ℤ) : ℚ) * ((2 : ℕ) : ℚ)) = FetchResult.ok 2; norm_num)

/-- C3: a cycle whose fetch fails leaves the whole monitor state exactly
as it was and never invokes the alert sink. -/
theorem fetch_failure_preserves_state (m : PriceMonitor) (http : HttpOutcome) (e : FetchError)
    (alertOk : Bool) (now : Nat) (h : fetch_price http = FetchResult.err e) :
    (loop_body m http alertOk now).monitor = m ∧ (loop_body m http alertOk now).alerted = false := by
  unfold loop_body
  rw [h]
  exact ⟨rfl, rfl⟩

/-- Witness for C3 on a network-level fetch failure. -/
theorem fetch_failure_preserves_state_witness :
    (loop_body (PriceMonitor.new (1/100) 7) HttpOutcome.fail true 9).monitor =
      PriceMonitor.new (1/100) 7 ∧
    (loop_body (PriceMonitor.new (1/100) 7) HttpOutcome.fail true 9).alerted = false :=
  fetch_failure_preserves_state (PriceMonitor.new (1/100) 7) HttpOutcome.fail
    FetchError.transport true 9 rfl

/-- C4 counterexample: on the exact spec scenario body, whose result
object is empty, serde deserialization fails before the error list is
ever inspected, so fetch_price fails with the decode (JSON) error rather
than the api error; the monitor state is unchanged. -/
theorem kraken_error_empty_result_decode_error :
    fetch_price (HttpOutcome.success c4_body) = FetchResult.err FetchError.decode ∧
    (loop_body (PriceMonitor.new (1/100) 0) (HttpOutcome.success c4_body) true 1).monitor =
      PriceMonitor.new (1/100) 0 :=
  ⟨rfl, rfl⟩

/-- C4 amended: whenever the body deserializes (which requires the result
object to carry the pair entry) and the error list is non-empty,
fetch_price fails with the api error propagating the provider text. -/
theorem fetch_api_error (body : Json) (r : KrakenResponse)
    (hd : deserializeKrakenResponse body = some r) (hne : r.error ≠ []) :
    fetch_price (HttpOutcome.success body) = FetchResult.err (FetchError.api r.error) := by
  simp only [fetch_price]
  rw [hd]
  have hie : r.error.isEmpty = false := by
    cases he : r.error with
    | nil => exact absurd he hne
    | cons a l => rfl
  simp [hie]

/-- Witness for the amended C4 on a body whose result still deserializes
and whose error list is non-empty. -/
theorem fetch_api_error_witness :
    fetch_price (HttpOutcome.success c4_witness_body) =
      FetchResult.err (FetchError.api ["EService:Unavailable"]) :=
  fetch_api_error c4_witness_body
    { error := ["EService:Unavailable"], result := { btc_usd := { c := ["1"] } } }
    rfl (by simp)

/-- C5: on a body that deserializes with an empty error list but an empty
c list the source indexes c[0] out of bounds and panics instead of
returning ParseError; the invalid-decimal half of the claim does return
ParseError. -/
theorem empty_price_list_panics :
    fetch_price (HttpOutcome.success c5_body) = FetchResult.panicked ∧
    fetch_price (HttpOutcome.success c5_badnum_body) = FetchResult.err FetchError.parse :=
  ⟨rfl, rfl⟩

/-- C6 counterexample: the degenerate zero price string parses and is
returned as a successful result, so fetch_price does return Ok with a
non-positive value. -/
theorem zero_price_returned_ok :
    fetch_price (HttpOutcome.success c6_body) = FetchResult.ok 0 := by
  show FetchResult.ok (((1 : ℤ) : ℚ) * ((0 : ℕ) : ℚ)) = FetchResult.ok 0
  norm_num

/-- C6 amended: on a deserialized body with an empty error list and a
non-empty c list whose head parses to v, fetch_price returns Ok v with no
positivity guard of any kind, whatever the sign of v. -/
theorem fetch_returns_parsed_price_unchecked (body : Json) (r : KrakenResponse) (s : String)
    (rest : List String) (v : ℚ) (hd : deserializeKrakenResponse body = some r)
    (he : r.error = []) (hc : r.result.btc_usd.c = s :: rest) (hp : parseF64 s = some v) :
    fetch_price (HttpOutcome.success body) = FetchResult.ok v := by
  simp only [fetch_price]
  rw [hd]
  simp [he, hc, hp]

/-- Witness for the amended C6 at the zero price string. -/
theorem fetch_returns_parsed_price_unchecked_witness :
    fetch_price (HttpOutcome.success c6_body) = FetchResult.ok 0 :=
  fetch_returns_parsed_price_unchecked c6_body
    { error := [], result := { btc_usd := { c := ["0"] } } } "0" [] 0 rfl rfl rfl
    (by show some (((1 : ℤ) : ℚ) * ((0 : ℕ) : ℚ)) = some 0; norm_num)

/-- C7: when the rule fires and play_alert fails, last_price is still
committed, the cycle is not terminal, and the cycle result is identical
to the one where playback succeeds. -/
theorem alert_failure_not_fatal (m : PriceMonitor) (http : HttpOutcome) (c : ℚ) (now : Nat)
    (h : fetch_price http = FetchResult.ok c) (ha : should_alert m c = true) :
    (loop_body m http false now).monitor.last_price = some c ∧
    (loop_body m http false now).panicked = false ∧
    loop_body m http false now = loop_body m http true now := by
  unfold loop_body
  rw [h]
  simp [ha]

/-- Witness for C7 at the boundary scenario of the spec: last price
50000, fetched price 50050, threshold 1/1000. -/
theorem alert_failure_not_fatal_witness :
    (loop_body { last_price := some 50000, last_alert := 0, alert_threshold := 1/1000 }
        (HttpOutcome.success body_50050) false 3).monitor.last_price = some 50050 ∧
    (loop_body { last_price := some 50000, last_alert := 0, alert_threshold := 1/1000 }
        (HttpOutcome.success body_50050) false 3).panicked = false ∧
    loop_body { last_price := some 50000, last_alert := 0, alert_threshold := 1/1000 }
        (HttpOutcome.success body_50050) false 3 =
      loop_body { last_price := some 50000, last_alert := 0, alert_threshold := 1/1000 }
        (HttpOutcome.success body_50050) true 3 :=
  alert_failure_not_fatal
    { last_price := some 50000, last_alert := 0, alert_threshold := 1/1000 }
    (HttpOutcome.success body_50050) 50050 3
    (by show FetchResult.ok (((1 : ℤ) : ℚ) * ((50050 : ℕ) : ℚ)) = FetchResult.ok 50050; norm_num)
    (by norm_num [should_alert])

/-- C8: over one loop iteration last_price becomes the successfully
fetched price and is otherwise untouched; in particular once it is some
value it stays some value forever. -/
theorem last_price_monotone (m : PriceMonitor) (http : HttpOutcome) (alertOk : Bool) (now : Nat) :
    (loop_body m http alertOk now).monitor.last_price =
      (match fetch_price http with
       | FetchResult.ok c => some c
       | FetchResult.err _ => m.last_price
       | FetchResult.panicked => m.last_price) ∧
    (m.last_price.isSome = true →
      ((loop_body m http alertOk now).monitor.last_price).isSome = true) := by
  constructor
  · unfold loop_body
    cases fetch_price http with
    | ok c => by_cases ha : should_alert m c = true <;> simp [ha]
    | err e => rfl
    | panicked => rfl
  · intro hs
    unfold loop_body
    cases fetch_price http with
    | ok c => by_cases ha : should_alert m c = true <;> simp [ha]
    | err e => exact hs
    | panicked => exact hs

/-- Witness for C8 on a failed fetch with a stored price 5. -/
theorem last_price_monotone_witness :
    (loop_body { last_price := some 5, last_alert := 0, alert_threshold := 1/100 }
        HttpOutcome.fail true 2).monitor.last_price =
      (match fetch_price HttpOutcome.fail with
       | FetchResult.ok c => some c
       | FetchResult.err _ => some 5
       | FetchResult.panicked => some 5) ∧
    ((loop_body { last_price := some 5, last_alert := 0, alert_threshold := 1/100 }
        HttpOutcome.fail true 2).monitor.last_price).isSome = true := by
  have h := last_price_monotone
    { last_price := some 5, last_alert := 0, alert_threshold := 1/100 } HttpOutcome.fail true 2
  exact ⟨h.1, h.2 rfl⟩

/-- C9: the loop is not panic-free: the empty-c body makes the cycle end
in a panic that kills the process instead of reaching the next tick; a
cycle is terminal exactly when fetch_price ends in the c[0] panic. -/
theorem loop_panics_on_empty_price_list :
    (loop_body (PriceMonitor.new (1/100) 0) (HttpOutcome.success c9_body) true 1).panicked = true ∧
    (∀ (m : PriceMonitor) (http : HttpOutcome) (alertOk : Bool) (now : Nat),
      (loop_body m http alertOk now).panicked = fetchPanics http) := by
  constructor
  · rfl
  · intro m http alertOk now
    unfold loop_body fetchPanics
    cases fetch_price http with
    | ok c => by_cases ha : should_alert m c = true <;> simp [ha]
    | err e => rfl
    | panicked => rfl

/-- C10: last_alert is overwritten with the current instant exactly on
the cycles where the fetch succeeded and the rule fired, independently of
the play_alert outcome, and is untouched on every other path. -/
theorem last_alert_update_rule (m : PriceMonitor) (http : HttpOutcome) (alertOk : Bool) (now : Nat) :
    (loop_body m http alertOk now).monitor.last_alert =
      (match fetch_price http with
       | FetchResult.ok c => if should_alert m c then now else m.last_alert
       | FetchResult.err _ => m.last_alert
       | FetchResult.panicked => m.last_alert) := by
  unfold loop_body
  cases fetch_price http with
  | ok c => by_cases ha : should_alert m c = true <;> simp [ha]
  | err e => rfl
  | panicked => rfl
